import Mathlib

/-!
Verification of the data-analytics agent core against its specification.

The definitions below are a shallow embedding of the Python sources:

* `agent/tools.py`   — the sandboxed code-execution engine (`execute_python_code`);
* `agent/analytics_agent.py` — the conversation orchestrator (`AnalyticsAgent.chat`);
* `services/memory_service.py` — the memory bank (`MemoryBank`);
* `services/session_service.py` — the session store (`InMemorySessionService`).

Machine-level effects (the Python interpreter actually running a code string,
`datetime.now`, `uuid.uuid4`, the network round trip to the language model)
are modelled as explicit oracle inputs; everything the repository's own code
does with those inputs is translated statement by statement.
-/

namespace Tools

/-- The names bound in the `__builtins__` entry of `restricted_globals` in
`execute_python_code` (agent/tools.py, lines 222–245), in source order. -/
def sandbox_builtin_names : List String :=
  ["range", "len", "str", "int", "float", "list", "dict", "sum", "min", "max",
   "abs", "round", "sorted", "enumerate", "zip", "print", "isinstance", "type",
   "True", "False", "None", "__import__"]

/-- The top-level keys of `restricted_globals` (agent/tools.py, lines 219–246). -/
def restricted_globals_keys : List String := ["pd", "json", "__builtins__"]

/-- The primitive builtins the specification's allow-list sentence describes:
arithmetic helpers, comparisons, basic containers and `print` (spec §4.2).
Stated for comparison with `sandbox_builtin_names`, which is taken from the
source. -/
def spec_allowed_builtins : List String :=
  ["range", "len", "str", "int", "float", "list", "dict", "sum", "min", "max",
   "abs", "round", "sorted", "enumerate", "zip", "print", "isinstance", "type",
   "True", "False", "None"]

/-- What the Python interpreter does with one `exec(code, ...)` call.  The
interpreter itself is outside the repository, so its verdict on a given code
string is an oracle input; everything `execute_python_code` does with the
verdict is translated from agent/tools.py. -/
inductive ExecOutcome where
  /-- `exec` returns normally; `printed` is the text written to `sys.stdout`
  during the call, `result`/`plot` are the values of the `result` and
  `plot_config` bindings left in `local_vars` (absent = `none`). -/
  | completes (printed : String) (result : Option String) (plot : Option String)
  /-- `exec` raises `SyntaxError` with the given line number, message and
  formatted traceback. -/
  | raisesSyntax (line : Nat) (msg : String) (traceback : String)
  /-- `exec` raises a non-syntax exception; `printed` is the stdout text
  accumulated up to the fault. -/
  | raisesRuntime (msg : String) (traceback : String) (printed : String)
  /-- `exec` has not finished when the 30-second `thread.join` deadline
  expires (e.g. `while True: pass`). -/
  | diverges
  deriving Repr, DecidableEq

/-- The dictionary `execute_python_code` returns (`result_container`, or the
literal dictionaries of its early-return branches).  A key that the branch
does not set is `none`. -/
structure ExecResultDict where
  success : Bool
  result : Option String
  plot_config : Option String
  output : Option String
  description : Option String
  error : Option String
  deriving Repr, DecidableEq

/-- The wall-clock limit passed to `thread.join` in agent/tools.py (line 299). -/
def execution_timeout_seconds : Nat := 30

/-- Shallow embedding of `execute_python_code(code, description, filename)`
(agent/tools.py, lines 195–310).  `file_exists` is the oracle for
`os.path.exists(filename)`; `outcome` is the interpreter oracle for the
`exec` call on the given code string. -/
def execute_python_code (file_exists : Bool) (description filename : String)
    (outcome : ExecOutcome) : ExecResultDict :=
  if !file_exists then
    { success := false, result := none, plot_config := none, output := none,
      description := none, error := some ("File not found: " ++ filename) }
  else
    match outcome with
    | .completes printed res plot =>
        -- sys.stdout is swapped for a fresh StringIO before exec, so the
        -- buffer read back by getvalue() is empty-string ++ the text printed.
        { success := true, result := res, plot_config := plot,
          output := some ("" ++ printed), description := some description,
          error := none }
    | .raisesSyntax line msg tb =>
        { success := false, result := none, plot_config := none, output := none,
          description := none,
          error := some ("Syntax Error at line " ++ toString line ++ ": "
            ++ msg ++ "\n" ++ tb) }
    | .raisesRuntime msg tb _printed =>
        { success := false, result := none, plot_config := none, output := none,
          description := none,
          error := some ("Execution error: " ++ msg ++ "\n" ++ tb) }
    | .diverges =>
        { success := false, result := none, plot_config := none, output := none,
          description := none,
          error := some ("Code execution timed out ("
            ++ toString execution_timeout_seconds ++ "s limit)") }

end Tools

namespace MemorySvc

/-- The `Memory` dataclass of services/memory_service.py.  Timestamps are
modelled as naturals (`datetime.now()` values are oracle inputs; only their
order matters to the code). -/
structure Memory where
  memory_id : String
  content : String
  category : String
  created_at : Nat
  metadata : List (String × String)
  access_count : Nat
  last_accessed : Option Nat
  deriving Repr, DecidableEq

/-- The `MemoryBank._memories` dict, in insertion order (Python dicts preserve
insertion order, and `.values()` iterates in it). -/
abbrev MemoryStore := List Memory

/-- `MemoryBank.add_memory` (memory_service.py, lines 44–76).  `new_id` is the
oracle for `str(uuid.uuid4())` and `now` for `datetime.now()`. -/
def add_memory (store : MemoryStore) (content category : String)
    (metadata : List (String × String)) (new_id : String) (now : Nat) :
    String × MemoryStore :=
  (new_id,
   store ++ [{ memory_id := new_id, content := content, category := category,
               created_at := now, metadata := metadata, access_count := 0,
               last_accessed := none }])

/-- Ordering used by `memories.sort(key=lambda m: m.created_at, reverse=True)`:
`a` may precede `b` when `a`'s creation time is no older. -/
def createdDesc (a b : Memory) : Prop := b.created_at ≤ a.created_at

instance : DecidableRel createdDesc :=
  fun a b => inferInstanceAs (Decidable (b.created_at ≤ a.created_at))

instance : IsTotal Memory createdDesc := ⟨fun a b => Nat.le_total b.created_at a.created_at⟩

instance : IsTrans Memory createdDesc :=
  ⟨fun _ _ _ h1 h2 => Nat.le_trans h2 h1⟩

/-- Ordering for `sort_by == "access_count"` (access count descending). -/
def accessDesc (a b : Memory) : Prop := b.access_count ≤ a.access_count

instance : DecidableRel accessDesc :=
  fun a b => inferInstanceAs (Decidable (b.access_count ≤ a.access_count))

instance : IsTotal Memory accessDesc := ⟨fun a b => Nat.le_total b.access_count a.access_count⟩

instance : IsTrans Memory accessDesc :=
  ⟨fun _ _ _ h1 h2 => Nat.le_trans h2 h1⟩

/-- Ordering for `sort_by == "last_accessed"`; a missing `last_accessed` is
replaced by `datetime.min` (the smallest timestamp, here `0`). -/
def lastAccessedDesc (a b : Memory) : Prop :=
  b.last_accessed.getD 0 ≤ a.last_accessed.getD 0

instance : DecidableRel lastAccessedDesc :=
  fun a b =>
    inferInstanceAs (Decidable (b.last_accessed.getD 0 ≤ a.last_accessed.getD 0))

instance : IsTotal Memory lastAccessedDesc :=
  ⟨fun a b => Nat.le_total (b.last_accessed.getD 0) (a.last_accessed.getD 0)⟩

instance : IsTrans Memory lastAccessedDesc :=
  ⟨fun _ _ _ h1 h2 => Nat.le_trans h2 h1⟩

/-- `MemoryBank.get_memories` (memory_service.py, lines 95–131).  Python's
`list.sort` is a stable sort, so it is modelled by `List.insertionSort` with
the corresponding "may precede" relation; `if category:` treats the empty
string like `None`. -/
def get_memories (store : MemoryStore) (category : Option String) (limit : Nat)
    (sort_by : String) : List Memory :=
  let memories :=
    match category with
    | some c => if c = "" then store else store.filter (fun m => m.category = c)
    | none => store
  let sorted :=
    if sort_by = "access_count" then memories.insertionSort accessDesc
    else if sort_by = "last_accessed" then memories.insertionSort lastAccessedDesc
    else memories.insertionSort createdDesc
  sorted.take limit

/-- Python's `str.lower()`, character by character (the strings this code
compares are ASCII; `Char.toLower` lowercases exactly the ASCII range). -/
def pyLower (s : String) : String := String.mk (s.data.map Char.toLower)

/-- Boolean substring containment on character lists (Python's `in` operator
on strings). -/
def charsContain (needle : List Char) : List Char → Bool
  | [] => needle.isEmpty
  | c :: t => needle.isPrefixOf (c :: t) || charsContain needle t

/-- `needle in hay` for Python strings. -/
def strContainsSub (hay needle : String) : Bool :=
  charsContain needle.data hay.data

/-- The match test of `MemoryBank.search_memories` (memory_service.py, lines
144–150): the lowercased query occurs in the lowercased content or the
lowercased category. -/
def matchesQuery (query : String) (m : Memory) : Bool :=
  strContainsSub (pyLower m.content) (pyLower query)
    || strContainsSub (pyLower m.category) (pyLower query)

/-- Ordering used by `matches.sort(key=lambda m: (m.access_count, m.created_at),
reverse=True)`: lexicographic on (access count, creation time), descending. -/
def searchDesc (a b : Memory) : Prop :=
  b.access_count < a.access_count
    ∨ (b.access_count = a.access_count ∧ b.created_at ≤ a.created_at)

instance : DecidableRel searchDesc :=
  fun a b =>
    inferInstanceAs (Decidable (b.access_count < a.access_count
      ∨ (b.access_count = a.access_count ∧ b.created_at ≤ a.created_at)))

instance : IsTotal Memory searchDesc := by
  constructor
  intro a b
  rcases Nat.lt_trichotomy a.access_count b.access_count with h | h | h
  · exact Or.inr (Or.inl h)
  · rcases Nat.le_total b.created_at a.created_at with h2 | h2
    · exact Or.inl (Or.inr ⟨h.symm, h2⟩)
    · exact Or.inr (Or.inr ⟨h, h2⟩)
  · exact Or.inl (Or.inl h)

instance : IsTrans Memory searchDesc := by
  constructor
  intro a b c hab hbc
  rcases hab with h1 | ⟨e1, l1⟩
  · rcases hbc with h2 | ⟨e2, _⟩
    · exact Or.inl (Nat.lt_trans h2 h1)
    · exact Or.inl (e2 ▸ h1)
  · rcases hbc with h2 | ⟨e2, l2⟩
    · exact Or.inl (e1 ▸ h2)
    · exact Or.inr ⟨e2.trans e1, Nat.le_trans l2 l1⟩

/-- The in-place access-stat update applied to each returned memory
(memory_service.py, lines 159–161). -/
def bumpAccess (now : Nat) (m : Memory) : Memory :=
  { m with access_count := m.access_count + 1, last_accessed := some now }

/-- `MemoryBank.search_memories` (memory_service.py, lines 133–163).  Returns
the list handed back to the caller and the store after the in-place access
updates; `now` is the `datetime.now()` oracle.  The returned objects are the
stored (mutated) ones, identified by their unique ids. -/
def search_memories (store : MemoryStore) (query : String) (limit : Nat)
    (now : Nat) : List Memory × MemoryStore :=
  let found := store.filter (matchesQuery query)
  let sorted := found.insertionSort searchDesc
  let returnedIds := (sorted.take limit).map (fun m => m.memory_id)
  ((sorted.take limit).map (bumpAccess now),
   store.map (fun m =>
     if returnedIds.contains m.memory_id then bumpAccess now m else m))

end MemorySvc

namespace SessionSvc

/-- The `Session` dataclass of services/session_service.py.  Conversation
history entries are (role, content, timestamp) triples. -/
structure SessionRec where
  session_id : String
  created_at : Nat
  last_activity : Nat
  metadata : List (String × String)
  conversation_history : List (String × String × Nat)
  context : List (String × String)
  deriving Repr, DecidableEq

/-- `InMemorySessionService._sessions`: a dict from session id to session, in
insertion order. -/
abbrev SessionStore := List (String × SessionRec)

/-- `InMemorySessionService.create_session` (session_service.py, lines 42–71).
`generated_id` is the oracle for `str(uuid.uuid4())` (used only when no
explicit id is supplied) and `now` for `datetime.now()`.  Raising `ValueError`
is modelled by the `Except.error` result; the store is returned alongside so
that the no-mutation-on-error behaviour is visible. -/
def create_session (store : SessionStore) (session_id : Option String)
    (metadata : List (String × String)) (generated_id : String) (now : Nat) :
    Except String SessionRec × SessionStore :=
  let sid := session_id.getD generated_id
  if (store.lookup sid).isSome then
    (.error ("Session " ++ sid ++ " already exists"), store)
  else
    let s : SessionRec :=
      { session_id := sid, created_at := now, last_activity := now,
        metadata := metadata, conversation_history := [], context := [] }
    (.ok s, store ++ [(sid, s)])

end SessionSvc

namespace Agent

open Tools

/-- One part of a model turn (`response.candidates[0].content.parts[0]`):
either a `function_call` (name, `code`, `description`, and the optional
`filename` argument) or a `text` part.  A part with neither attribute set is
a `text` with the empty (falsy) string. -/
inductive Part where
  | functionCall (name code description : String) (filename : Option String)
  | text (s : String)
  deriving Repr, DecidableEq

/-- What the remote model does with one `chat_session.send_message` call: a
normal reply (its parts and `finish_reason`), a `StopCandidateException` with
the given `finish_reason`, or some other exception.  The model is outside the
repository, so a `chat` run is parametrised by the script of these steps,
consumed one per send. -/
inductive ModelStep where
  | reply (parts : List Part) (finish_reason : Nat)
  | stopCandidate (finish_reason : Nat)
  | fail (msg : String)
  deriving Repr, DecidableEq

/-- Classification of the messages `chat` sends to the model, for counting
priming events. -/
inductive SendTag where
  | priming
  | userMessage
  | retryMessage
  | toolResponse
  deriving Repr, DecidableEq

/-- One entry of `execution_log["tool_calls"]` (analytics_agent.py, lines
502–509). -/
structure ToolCallEntry where
  tool : String
  description : String
  success : Bool
  has_result : Bool
  has_plot_config : Bool
  error : Option String
  deriving Repr, DecidableEq

/-- The `execution_log` dictionary assembled during the turn loop
(analytics_agent.py, lines 451–455). -/
structure ExecutionLog where
  tool_calls : List ToolCallEntry
  errors : List String
  warnings : List String
  deriving Repr, DecidableEq

structure AgentResponse where
  response : String
  plot_config : Option String
  code : Option String
  execution_log : Option ExecutionLog
  deriving Repr, DecidableEq

/-- The mutable fields of `AnalyticsAgent` that `chat` reads or writes:
the bound dataset path, the default chat-session handle, the per-session
handle dict `_session_chats`, and whether a session service is configured.
A handle (`genai` chat session object) is abstracted to `Unit`. -/
structure AgentState where
  current_file_path : Option String
  chat_session : Option Unit
  session_chats : List (String × Option Unit)
  has_session_service : Bool
  deriving Repr, DecidableEq

/-- Ways a `chat` run can fail to return normally: an exception escaping to
the caller (`StopCandidateException` or another exception raised at a send
that no `try` covers), plus two artifacts of the finite embedding — the model
script running out, and the fuel bound on the tool loop. -/
inductive ChatError where
  | uncaughtStop (finish_reason : Nat)
  | uncaughtFail (msg : String)
  | scriptExhausted
  | outOfFuel
  deriving Repr, DecidableEq

/-- Outcome of a `chat` run: the returned `AgentResponse` or the escaped
exception, the agent state afterwards (Python object state survives an
exception), and the tags of the messages sent to the model. -/
instance : DecidableEq (Except ChatError AgentResponse) := fun x y =>
  match x, y with
  | .error e1, .error e2 =>
      if h : e1 = e2 then .isTrue (by rw [h])
      else .isFalse (by intro hc; cases hc; exact h rfl)
  | .ok a1, .ok a2 =>
      if h : a1 = a2 then .isTrue (by rw [h])
      else .isFalse (by intro hc; cases hc; exact h rfl)
  | .error _, .ok _ => .isFalse (by intro hc; cases hc)
  | .ok _, .error _ => .isFalse (by intro hc; cases hc)

structure ChatResult where
  result : Except ChatError AgentResponse
  state : AgentState
  sends : List SendTag
  deriving Repr, DecidableEq

/-- Which handle slot this call uses (analytics_agent.py, lines 254–265):
the per-session slot when a session id is given (Python truthiness: the empty
string counts as absent) and a session service is configured, else the
default slot. -/
def sessionKey (st : AgentState) (session_id : Option String) : Option String :=
  match session_id with
  | some sid => if sid = "" then none else
      if st.has_session_service then some sid else none
  | none => none

/-- Lookup in the `_session_chats` dict (`session_id in self._session_chats`
/ `self._session_chats[session_id]`). -/
def lookupChat : List (String × Option Unit) → String → Option (Option Unit)
  | [], _ => none
  | (k, v) :: t, sid => if sid = k then some v else lookupChat t sid

/-- `if session_id not in self._session_chats: self._session_chats[session_id] = None`
(analytics_agent.py, lines 259–260). -/
def ensureKey (st : AgentState) (key : Option String) : AgentState :=
  match key with
  | some sid =>
      if (lookupChat st.session_chats sid).isSome then st
      else { st with session_chats := st.session_chats ++ [(sid, none)] }
  | none => st

/-- The handle currently stored in the chosen slot. -/
def currentChat (st : AgentState) (key : Option String) : Option Unit :=
  match key with
  | some sid => (lookupChat st.session_chats sid).getD none
  | none => st.chat_session

/-- The dict write `self._session_chats[session_id] = chat_session`: replace
the value at the (unique) matching key in place. -/
def setChat : List (String × Option Unit) → String → List (String × Option Unit)
  | [], _ => []
  | (k, v) :: t, sid => if sid = k then (k, some ()) :: t else (k, v) :: setChat t sid

/-- Storing the freshly created `model.start_chat` handle into its slot
(analytics_agent.py, lines 331–337); this happens before the priming
instruction is sent. -/
def storeHandle (st : AgentState) (key : Option String) : AgentState :=
  match key with
  | some sid => { st with session_chats := setChat st.session_chats sid }
  | none => { st with chat_session := some () }

/-- The `error_messages.get(finish_reason, ...)` table of the retry loop
(analytics_agent.py, lines 382–388). -/
def errorTypeFor (finish_reason : Nat) : String :=
  if finish_reason = 2 then "Response exceeded token limit"
  else if finish_reason = 3 then "Content filtered by safety settings"
  else if finish_reason = 4 then "Potential copyright content detected"
  else if finish_reason = 10 then "Potential copyright content detected"
  else "Unknown error (finish_reason: " ++ toString finish_reason ++ ")"

/-- The early return when no dataset is bound (analytics_agent.py, line 251);
only `response` is passed, the other fields keep their `None` defaults. -/
def noDatasetResponse : AgentResponse :=
  { response := "Please upload a dataset first to start analyzing data.",
    plot_config := none, code := none, execution_log := none }

/-- The diagnostic response returned when the priming send raises
`StopCandidateException` (analytics_agent.py, lines 343–355). -/
def primingErrorResponse (finish_reason : Nat) : AgentResponse :=
  { response := "I encountered an error initializing the analysis session. Please try uploading your data again.",
    plot_config := none, code := none,
    execution_log := some
      { tool_calls := [],
        errors := ["RECITATION error during system initialization: finish_reason "
          ++ toString finish_reason],
        warnings := [] } }

/-- The response returned once the retry budget is exhausted
(analytics_agent.py, lines 395–405); `max_retries = 2`, so the log records
3 attempts. -/
def rejectionResponse (finish_reason : Nat) : AgentResponse :=
  { response := "I'm having trouble generating a response. This might be due to content restrictions. Please try rephrasing your question or asking about specific aspects of the data.",
    plot_config := none, code := none,
    execution_log := some
      { tool_calls := [],
        errors := ["StopCandidateException after 3 attempts: "
          ++ errorTypeFor finish_reason],
        warnings := ["Consider rephrasing the question"] } }

/-- The response returned when the user-message send raises a non-
`StopCandidateException` exception (analytics_agent.py, lines 409–422). -/
def unexpectedErrorResponse (msg : String) : AgentResponse :=
  { response := "I encountered an unexpected error. Please try again.",
    plot_config := none, code := none,
    execution_log := some
      { tool_calls := [],
        errors := ["Unexpected error: " ++ msg],
        warnings := [] } }

/-- Assembling the final `AgentResponse` at the end of the turn loop
(analytics_agent.py, lines 556–561): `final_response or "Analysis complete."`. -/
def finishTurn (st : AgentState) (sends : List SendTag) (final_response : String)
    (executed_code : Option String) (final_plot : Option String)
    (elog : ExecutionLog) : ChatResult :=
  { result := .ok
      { response := if final_response = "" then "Analysis complete." else final_response,
        plot_config := final_plot, code := executed_code,
        execution_log := some elog },
    state := st, sends := sends }

/-- The tool-calling loop `while response.candidates[0].content.parts:`
(analytics_agent.py, lines 457–543).  Only `parts[0]` is inspected each
round.  For an `execute_python_code` call the engine result is logged, a
warning is added when a successful execution produced no `plot_config`, and
the function response is sent back to the model — a send the surrounding code
does not guard, so a model exception there escapes `chat`.  A function call
with any other name leaves the loop state unchanged (an infinite loop in the
source), which the fuel bound makes finite here. -/
def toolLoop (st : AgentState)
    (executor : String → String → String → ExecResultDict) :
    Nat → List ModelStep → List SendTag → List Part →
    Option String → Option String → ExecutionLog → ChatResult
  | 0, _, sends, _, _, _, _ => { result := .error .outOfFuel, state := st, sends := sends }
  | _ + 1, _script, sends, [], executed_code, final_plot, elog =>
      finishTurn st sends "" executed_code final_plot elog
  | fuel + 1, script, sends, part :: rest, executed_code, final_plot, elog =>
      match part with
      | .text s =>
          if s = "" then finishTurn st sends "" executed_code final_plot elog
          else finishTurn st sends s executed_code final_plot elog
      | .functionCall name code description fnArg =>
          if name = "execute_python_code" then
            let filename := fnArg.getD (st.current_file_path.getD "")
            let exec_result := executor code description filename
            let entry : ToolCallEntry :=
              { tool := "execute_python_code", description := description,
                success := exec_result.success,
                has_result := exec_result.result.isSome,
                has_plot_config := exec_result.plot_config.isSome,
                error := if exec_result.success then none else exec_result.error }
            let elog1 := { elog with tool_calls := elog.tool_calls ++ [entry] }
            let elog2 :=
              if exec_result.success && exec_result.plot_config.isNone then
                { elog1 with warnings := elog1.warnings
                    ++ ["Code executed successfully but no plot_config was generated"] }
              else elog1
            match script with
            | [] => { result := .error .scriptExhausted, state := st,
                      sends := sends ++ [.toolResponse] }
            | .reply parts' _ :: script' =>
                let final_plot' :=
                  if exec_result.success && exec_result.plot_config.isSome then
                    exec_result.plot_config
                  else final_plot
                toolLoop st executor fuel script' (sends ++ [.toolResponse])
                  parts' (some code) final_plot' elog2
            | .stopCandidate fr :: _ =>
                { result := .error (.uncaughtStop fr), state := st,
                  sends := sends ++ [.toolResponse] }
            | .fail msg :: _ =>
                { result := .error (.uncaughtFail msg), state := st,
                  sends := sends ++ [.toolResponse] }
          else
            toolLoop st executor fuel script sends (part :: rest)
              executed_code final_plot elog

/-- The retry loop around the user-message send (analytics_agent.py, lines
358–422): up to `max_retries = 2` extra attempts on `StopCandidateException`,
a normal return with a diagnostic response after the budget is spent, and a
catch-all for other exceptions. -/
def retryLoop (st : AgentState) (executor : String → String → String → ExecResultDict)
    (fuel : Nat) (retry_count : Nat) (sends : List SendTag) :
    List ModelStep → ChatResult
  | [] => { result := .error .scriptExhausted, state := st,
            sends := sends ++ [if retry_count = 0 then .userMessage else .retryMessage] }
  | step :: script =>
      let sends' := sends ++ [if retry_count = 0 then SendTag.userMessage else .retryMessage]
      match step with
      | .reply parts _ =>
          toolLoop st executor fuel script sends' parts none none
            { tool_calls := [], errors := [], warnings := [] }
      | .stopCandidate fr =>
          if retry_count ≥ 2 then
            { result := .ok (rejectionResponse fr), state := st, sends := sends' }
          else
            retryLoop st executor fuel (retry_count + 1) sends' script
      | .fail msg =>
          { result := .ok (unexpectedErrorResponse msg), state := st, sends := sends' }

/-- Shallow embedding of `AnalyticsAgent.chat(user_message, session_id)`
(analytics_agent.py, lines 239–597).  `script` is the oracle for the model's
successive `send_message` answers, `executor` abstracts
`tools.execute_python_code` (including its file-system check), and `fuel`
bounds the tool loop.  Session-history appends, insight auto-save and
preference extraction are side effects on other services and do not feed back
into the returned `AgentResponse`; they are not modelled. -/
def chat (st : AgentState) (session_id : Option String)
    (script : List ModelStep) (fuel : Nat)
    (executor : String → String → String → ExecResultDict) : ChatResult :=
  match st.current_file_path with
  | none => { result := .ok noDatasetResponse, state := st, sends := [] }
  | some _ =>
    let key := sessionKey st session_id
    let st1 := ensureKey st key
    match currentChat st1 key with
    | some _ => retryLoop st1 executor fuel 0 [] script
    | none =>
      let st2 := storeHandle st1 key
      match script with
      | [] => { result := .error .scriptExhausted, state := st2, sends := [.priming] }
      | .reply _ _ :: script' => retryLoop st2 executor fuel 0 [.priming] script'
      | .stopCandidate fr :: _ =>
          { result := .ok (primingErrorResponse fr), state := st2, sends := [.priming] }
      | .fail msg :: _ =>
          { result := .error (.uncaughtFail msg), state := st2, sends := [.priming] }

end Agent

namespace Agent

/-- Looking up a key that is present still finds it after the dict-update
`self._session_chats[session_id] = chat_session`, and finds the stored
handle. -/
theorem lookup_setChat (l : List (String × Option Unit)) (sid : String)
    (h : (lookupChat l sid).isSome) :
    lookupChat (setChat l sid) sid = some (some ()) := by
  induction l with
  | nil => simp [lookupChat] at h
  | cons hd t ih =>
    obtain ⟨k, v⟩ := hd
    by_cases hk : sid = k
    · simp [setChat, lookupChat, if_pos hk]
    · simp only [lookupChat, if_neg hk] at h
      simp only [setChat, if_neg hk, lookupChat]
      exact ih h

/-- Appending a fresh key to an assoc list makes it found with its value. -/
theorem lookup_append_self (l : List (String × Option Unit)) (sid : String)
    (v : Option Unit) (h : lookupChat l sid = none) :
    lookupChat (l ++ [(sid, v)]) sid = some v := by
  induction l with
  | nil => simp [lookupChat]
  | cons hd t ih =>
    obtain ⟨k, w⟩ := hd
    by_cases hk : sid = k
    · simp [lookupChat, if_pos hk] at h
    · simp only [lookupChat, if_neg hk] at h
      simpa [lookupChat, if_neg hk] using ih h

/-- After `ensureKey`, the session id has an entry in `_session_chats`. -/
theorem ensureKey_lookup (st : AgentState) (sid : String) :
    ((lookupChat (ensureKey st (some sid)).session_chats sid)).isSome := by
  unfold ensureKey
  by_cases h : (lookupChat st.session_chats sid).isSome
  · simp [h]
  · have hn : lookupChat st.session_chats sid = none :=
      Option.not_isSome_iff_eq_none.mp (by simpa using h)
    simp only [h, if_false, Bool.false_eq_true]
    rw [lookup_append_self _ _ _ hn]
    rfl

/-- Storing the fresh handle into its (ensured) slot makes `currentChat`
return it. -/
theorem storeHandle_currentChat (st : AgentState) (key : Option String) :
    currentChat (storeHandle (ensureKey st key) key) key = some () := by
  cases key with
  | none => rfl
  | some sid =>
    simp only [currentChat, storeHandle]
    rw [lookup_setChat _ _ (ensureKey_lookup st sid)]
    rfl

/-- `ensureKey` only touches `_session_chats`. -/
theorem ensureKey_fields (st : AgentState) (key : Option String) :
    (ensureKey st key).current_file_path = st.current_file_path
      ∧ (ensureKey st key).has_session_service = st.has_session_service
      ∧ (ensureKey st key).chat_session = st.chat_session := by
  cases key with
  | none => exact ⟨rfl, rfl, rfl⟩
  | some sid =>
    unfold ensureKey
    by_cases h : (lookupChat st.session_chats sid).isSome <;> simp [h]

/-- `storeHandle` only touches the handle slots. -/
theorem storeHandle_fields (st : AgentState) (key : Option String) :
    (storeHandle st key).current_file_path = st.current_file_path
      ∧ (storeHandle st key).has_session_service = st.has_session_service := by
  cases key with
  | none => exact ⟨rfl, rfl⟩
  | some sid => exact ⟨rfl, rfl⟩

/-- The tool loop never mutates the agent's stored state (all
`_session_chats` / `chat_session` writes happen before it). -/
theorem toolLoop_state (st : AgentState)
    (ex : String → String → String → Tools.ExecResultDict) :
    ∀ fuel script sends parts ec fp elog,
      (toolLoop st ex fuel script sends parts ec fp elog).state = st := by
  intro fuel
  induction fuel with
  | zero => intro script sends parts ec fp elog; rfl
  | succ n ih =>
    intro script sends parts ec fp elog
    match parts with
    | [] => rfl
    | .text s :: rest =>
        by_cases h : s = "" <;> simp [toolLoop, finishTurn, h]
    | .functionCall name code desc fn :: rest =>
        by_cases h : name = "execute_python_code"
        · match script with
          | [] => simp [toolLoop, h]
          | .reply parts' fr :: script' => simp [toolLoop, h, ih]
          | .stopCandidate fr :: script' => simp [toolLoop, h]
          | .fail m :: script' => simp [toolLoop, h]
        · simp [toolLoop, h, ih]

/-- The tool loop sends only tool responses: it adds no priming sends. -/
theorem toolLoop_priming_count (st : AgentState)
    (ex : String → String → String → Tools.ExecResultDict) :
    ∀ fuel script sends parts ec fp elog,
      (toolLoop st ex fuel script sends parts ec fp elog).sends.count .priming
        = sends.count .priming := by
  intro fuel
  induction fuel with
  | zero => intro script sends parts ec fp elog; rfl
  | succ n ih =>
    intro script sends parts ec fp elog
    match parts with
    | [] => rfl
    | .text s :: rest =>
        by_cases h : s = "" <;> simp [toolLoop, finishTurn, h]
    | .functionCall name code desc fn :: rest =>
        by_cases h : name = "execute_python_code"
        · match script with
          | [] => simp [toolLoop, h, List.count_append]
          | .reply parts' fr :: script' =>
              simp [toolLoop, h, ih, List.count_append]
          | .stopCandidate fr :: script' =>
              simp [toolLoop, h, List.count_append]
          | .fail m :: script' =>
              simp [toolLoop, h, List.count_append]
        · simp [toolLoop, h, ih]

/-- The retry loop never mutates the agent's stored state. -/
theorem retryLoop_state (st : AgentState)
    (ex : String → String → String → Tools.ExecResultDict) (fuel : Nat) :
    ∀ script retry_count sends,
      (retryLoop st ex fuel retry_count sends script).state = st := by
  intro script
  induction script with
  | nil => intro rc sends; rfl
  | cons step script' ih =>
    intro rc sends
    match step with
    | .reply parts fr => simp [retryLoop, toolLoop_state]
    | .stopCandidate fr =>
        by_cases h : rc ≥ 2 <;> simp [retryLoop, h, ih]
    | .fail m => rfl

/-- The tag recorded for a user-message attempt is never a priming tag. -/
theorem count_attempt_tag (rc : Nat) :
    List.count SendTag.priming
        [if rc = 0 then SendTag.userMessage else SendTag.retryMessage] = 0 := by
  by_cases h : rc = 0 <;> simp [h]

/-- The retry loop sends only the user message and its retry reframings:
it adds no priming sends. -/
theorem retryLoop_priming_count (st : AgentState)
    (ex : String → String → String → Tools.ExecResultDict) (fuel : Nat) :
    ∀ script retry_count sends,
      (retryLoop st ex fuel retry_count sends script).sends.count .priming
        = sends.count .priming := by
  intro script
  induction script with
  | nil =>
      intro rc sends
      simp [retryLoop, count_attempt_tag]
  | cons step script' ih =>
    intro rc sends
    match step with
    | .reply parts fr =>
        simp [retryLoop, toolLoop_priming_count, count_attempt_tag]
    | .stopCandidate fr =>
        by_cases h2 : rc ≥ 2
        · simp [retryLoop, h2, count_attempt_tag]
        · simp [retryLoop, h2, ih, count_attempt_tag]
    | .fail m =>
        simp [retryLoop, count_attempt_tag]

/-- Closed form for the agent state after a `chat` call: with no dataset the
state is untouched; otherwise the per-call slot is ensured and, exactly when
it held no handle, a fresh handle is stored — everything downstream
(retry loop, tool loop) leaves the state alone. -/
theorem chat_state (st : AgentState) (session_id : Option String)
    (script : List ModelStep) (fuel : Nat)
    (ex : String → String → String → Tools.ExecResultDict) :
    (chat st session_id script fuel ex).state
      = match st.current_file_path with
        | none => st
        | some _ =>
          match currentChat (ensureKey st (sessionKey st session_id))
              (sessionKey st session_id) with
          | some _ => ensureKey st (sessionKey st session_id)
          | none => storeHandle (ensureKey st (sessionKey st session_id))
              (sessionKey st session_id) := by
  cases hf : st.current_file_path with
  | none => simp [chat, hf]
  | some p =>
    simp only [chat, hf]
    cases hcc : currentChat (ensureKey st (sessionKey st session_id))
        (sessionKey st session_id) with
    | some u => simp [hcc, retryLoop_state]
    | none =>
      cases script with
      | nil => simp [hcc]
      | cons step rest => cases step <;> simp [hcc, retryLoop_state]

/-- Closed form for the number of priming sends of one `chat` call: zero
when no dataset is bound or a handle already exists for the call's slot, and
exactly one when the slot was empty and the system instruction is sent. -/
theorem chat_priming_count (st : AgentState) (session_id : Option String)
    (script : List ModelStep) (fuel : Nat)
    (ex : String → String → String → Tools.ExecResultDict) :
    (chat st session_id script fuel ex).sends.count .priming
      = match st.current_file_path with
        | none => 0
        | some _ =>
          match currentChat (ensureKey st (sessionKey st session_id))
              (sessionKey st session_id) with
          | some _ => 0
          | none => 1 := by
  cases hf : st.current_file_path with
  | none => simp [chat, hf]
  | some p =>
    simp only [chat, hf]
    cases hcc : currentChat (ensureKey st (sessionKey st session_id))
        (sessionKey st session_id) with
    | some u => simp [hcc, retryLoop_priming_count]
    | none =>
      cases script with
      | nil => simp [hcc]
      | cons step rest => cases step <;> simp [hcc, retryLoop_priming_count]

/-- After any `chat` call on a bound dataset with a session service and a
non-empty session id, the `_session_chats` slot for that id holds a handle. -/
theorem chat_handle_after (st : AgentState) (p sid : String)
    (script : List ModelStep) (fuel : Nat)
    (ex : String → String → String → Tools.ExecResultDict)
    (h1 : st.current_file_path = some p) (h2 : st.has_session_service = true)
    (h3 : sid ≠ "") :
    lookupChat (chat st (some sid) script fuel ex).state.session_chats sid
      = some (some ()) := by
  have hkey : sessionKey st (some sid) = some sid := by
    simp [sessionKey, h3, h2]
  rw [chat_state, h1, hkey]
  cases hl : lookupChat (ensureKey st (some sid)).session_chats sid with
  | none =>
      exact absurd (hl ▸ ensureKey_lookup st sid) (by simp)
  | some v =>
    cases v with
    | none =>
        have hcc : currentChat (ensureKey st (some sid)) (some sid) = none := by
          simp [currentChat, hl]
        simp only [hcc]
        simpa [storeHandle] using lookup_setChat _ _ (ensureKey_lookup st sid)
    | some u =>
        have hcc : currentChat (ensureKey st (some sid)) (some sid) = some () := by
          simp [currentChat, hl]
        simp only [hcc]
        exact hl

/-- `chat` never changes the bound dataset pointer or the session-service
configuration. -/
theorem chat_preserves_config (st : AgentState) (session_id : Option String)
    (script : List ModelStep) (fuel : Nat)
    (ex : String → String → String → Tools.ExecResultDict) :
    (chat st session_id script fuel ex).state.current_file_path
        = st.current_file_path
      ∧ (chat st session_id script fuel ex).state.has_session_service
        = st.has_session_service := by
  rw [chat_state]
  cases hf : st.current_file_path with
  | none => exact ⟨hf, rfl⟩
  | some p =>
    cases hcc : currentChat (ensureKey st (sessionKey st session_id))
        (sessionKey st session_id) with
    | some u =>
        refine ⟨?_, ?_⟩
        · show (ensureKey st (sessionKey st session_id)).current_file_path = some p
          rw [(ensureKey_fields st _).1]
          exact hf
        · exact (ensureKey_fields st _).2.1
    | none =>
        refine ⟨?_, ?_⟩
        · show (storeHandle (ensureKey st (sessionKey st session_id))
              (sessionKey st session_id)).current_file_path = some p
          rw [(storeHandle_fields _ _).1, (ensureKey_fields st _).1]
          exact hf
        · show (storeHandle (ensureKey st (sessionKey st session_id))
              (sessionKey st session_id)).has_session_service
            = st.has_session_service
          rw [(storeHandle_fields _ _).2]
          exact (ensureKey_fields st _).2.1

/-- When the call's slot already holds a handle, `chat` sends no priming
instruction. -/
theorem chat_no_repriming (st : AgentState) (p sid : String)
    (script : List ModelStep) (fuel : Nat)
    (ex : String → String → String → Tools.ExecResultDict)
    (h1 : st.current_file_path = some p) (h2 : st.has_session_service = true)
    (h3 : sid ≠ "") (hh : lookupChat st.session_chats sid = some (some ())) :
    (chat st (some sid) script fuel ex).sends.count .priming = 0 := by
  have hkey : sessionKey st (some sid) = some sid := by
    simp [sessionKey, h3, h2]
  have hens : ensureKey st (some sid) = st := by
    simp [ensureKey, hh]
  have hcc : currentChat (ensureKey st (some sid)) (some sid) = some () := by
    simp [currentChat, hens, hh]
  rw [chat_priming_count, h1, hkey, hcc]

end Agent

/-! ## Claim C1 — the sandbox symbol table -/

/-- C1, counterexample: the claim says the restricted symbol table exposes
*only* the fixed allow-list of primitive builtins (plus `pd` and `json`), with
no primitive able to reach the filesystem, network or process spawning.  In
fact the `__builtins__` allow-list of `execute_python_code` also contains
`__import__`, which is not one of the spec's primitive builtins and lets
executed code import any module (`os`, `subprocess`, `socket`, ...). -/
theorem sandbox_exposes_import :
    "__import__" ∈ Tools.sandbox_builtin_names
      ∧ "__import__" ∉ Tools.spec_allowed_builtins
      ∧ ¬ (∀ n ∈ Tools.sandbox_builtin_names, n ∈ Tools.spec_allowed_builtins) := by
  refine ⟨by decide, by decide, fun h => ?_⟩
  have := h "__import__" (by decide)
  exact absurd this (by decide)

/-- C1, amended: the symbol table passed to `exec` has exactly the keys `pd`,
`json` and `__builtins__`, and the builtin allow-list is exactly the spec's
primitive builtins *plus `__import__`*; so the no-ambient-globals part of the
claim holds, but module-import capability (and through it filesystem, network
and process primitives) is exposed. -/
theorem sandbox_allowlist_exact :
    Tools.sandbox_builtin_names = Tools.spec_allowed_builtins ++ ["__import__"]
      ∧ Tools.restricted_globals_keys = ["pd", "json", "__builtins__"] := by
  constructor <;> rfl

/-! ## Claims C3–C5 — the execution engine -/

/-- C3: when the worker thread is still running at the 30-second
`thread.join` deadline (the oracle case `ExecOutcome.diverges`, e.g.
`while True: pass`), `execute_python_code` returns at the deadline with
`success = false`, the timeout error message, and no captured stdout — the
`output` key is never set on this path. -/
theorem execute_timeout_discards_stdout (description filename : String) :
    Tools.execute_python_code true description filename .diverges =
      { success := false, result := none, plot_config := none, output := none,
        description := none,
        error := some "Code execution timed out (30s limit)" } := by
  rfl

/-- C4, counterexample: the claim says the result of a run that raises a
runtime exception carries the stdout accumulated up to the fault.  At the
concrete outcome below (a `ZeroDivisionError` after `"partial stdout\n"` was
printed) the result's `output` field is `none`: the except-branch of
`execute_code` stores only `success` and `error`, and the captured buffer is
dropped when `sys.stdout` is restored. -/
theorem execute_runtime_error_loses_stdout :
    (Tools.execute_python_code true "compute ratio" "data.csv"
        (.raisesRuntime "division by zero" "Traceback: ZeroDivisionError" "partial stdout\n")).output
        ≠ some "partial stdout\n"
      ∧ (Tools.execute_python_code true "compute ratio" "data.csv"
        (.raisesRuntime "division by zero" "Traceback: ZeroDivisionError" "partial stdout\n")).output
        = none := by
  constructor
  · intro h
    cases h
  · rfl

/-- C4, amended: for every run whose `exec` raises a non-syntax exception,
the returned dictionary has `success = false` and an error string carrying
the underlying exception description (and traceback), but the stdout
accumulated up to the fault is discarded — no `output` key is set. -/
theorem execute_runtime_error_shape
    (msg traceback printed description filename : String) :
    (Tools.execute_python_code true description filename
        (.raisesRuntime msg traceback printed)).success = false
      ∧ (Tools.execute_python_code true description filename
          (.raisesRuntime msg traceback printed)).error
          = some ("Execution error: " ++ msg ++ "\n" ++ traceback)
      ∧ (Tools.execute_python_code true description filename
          (.raisesRuntime msg traceback printed)).output = none := by
  exact ⟨rfl, rfl, rfl⟩

/-- C5: on a successful in-time execution, the `output` field equals exactly
the text printed during that execution — `sys.stdout` is swapped for a fresh
(empty) buffer before `exec`, and that buffer's final contents are returned
verbatim. -/
theorem execute_success_output_exact
    (printed : String) (res plot : Option String) (description filename : String) :
    (Tools.execute_python_code true description filename
        (.completes printed res plot)).success = true
      ∧ (Tools.execute_python_code true description filename
          (.completes printed res plot)).output = some printed := by
  refine ⟨rfl, ?_⟩
  simp [Tools.execute_python_code]

/-! ## Claim C10 — session creation -/

/-- C10: `create_session` with an explicit, already-present session id raises
`ValueError` and leaves the store unchanged; with no explicit id it uses the
generated `uuid4` string and succeeds whenever that id is fresh (the
generator is an oracle; `uuid4` collisions are assumed away). -/
theorem create_session_duplicate_and_fresh
    (store : SessionSvc.SessionStore) (sid generated : String)
    (metadata : List (String × String)) (now : Nat) :
    ((store.lookup sid).isSome →
        SessionSvc.create_session store (some sid) metadata generated now
          = (.error ("Session " ++ sid ++ " already exists"), store))
      ∧ ((store.lookup generated).isNone →
        ∃ s, SessionSvc.create_session store none metadata generated now
            = (.ok s, store ++ [(generated, s)]) ∧ s.session_id = generated) := by
  constructor
  · intro h
    simp [SessionSvc.create_session, h]
  · intro h
    refine ⟨{ session_id := generated, created_at := now, last_activity := now,
              metadata := metadata, conversation_history := [], context := [] },
            ?_, rfl⟩
    have h' : (store.lookup generated).isSome = false := by
      simpa [Option.isNone_iff_eq_none, Option.isSome_iff_exists] using h
    simp [SessionSvc.create_session, h']

/-! ## Claim C2 — `chat` and the rejection retry budget -/

/-- C2, counterexample: the claim says `chat` never raises to its caller.
In the concrete run below the model replies to the user message with an
`execute_python_code` tool call, `chat` executes it and sends the function
response back — a send the source does not wrap in any `try` — and the model
answers that send with `StopCandidateException` (finish_reason 3), which
escapes `chat`. -/
theorem chat_raises_in_tool_loop :
    (Agent.chat
        { current_file_path := some "data.csv", chat_session := some (),
          session_chats := [], has_session_service := false }
        none
        [.reply [.functionCall "execute_python_code"
            "df = pd.read_csv(filename)" "load data" none] 1,
         .stopCandidate 3]
        2
        (fun _ _ _ =>
          { success := true, result := some "42", plot_config := none,
            output := some "", description := some "load data",
            error := none })).result
      = .error (.uncaughtStop 3) := by
  rfl

/-- C2, amended: when the per-call slot already holds a model session, three
consecutive `StopCandidateException`s on the user-message send exhaust the
retry budget (`max_retries = 2`) and `chat` returns normally with an
`AgentResponse` whose `code` and `plot_config` are null and whose
`execution_log.errors` is non-empty.  (The never-raises half of the claim is
false: an exception at the tool-loop send propagates, see the
counterexample.) -/
theorem chat_rejection_budget (st : Agent.AgentState) (session_id : Option String)
    (p : String) (f1 f2 f3 : Nat) (rest : List Agent.ModelStep) (fuel : Nat)
    (ex : String → String → String → Tools.ExecResultDict)
    (h1 : st.current_file_path = some p)
    (hcc : Agent.currentChat
        (Agent.ensureKey st (Agent.sessionKey st session_id))
        (Agent.sessionKey st session_id) = some ()) :
    (Agent.chat st session_id
        (.stopCandidate f1 :: .stopCandidate f2 :: .stopCandidate f3 :: rest)
        fuel ex).result
      = .ok (Agent.rejectionResponse f3)
    ∧ (Agent.rejectionResponse f3).code = none
    ∧ (Agent.rejectionResponse f3).plot_config = none
    ∧ ∃ l, (Agent.rejectionResponse f3).execution_log = some l
        ∧ l.errors ≠ [] := by
  refine ⟨?_, rfl, rfl, _, rfl, by simp⟩
  simp [Agent.chat, h1, hcc, Agent.retryLoop]

/-- Witness for C2 (amended): a concrete primed agent receiving three
consecutive rejections returns the diagnostic response. -/
theorem chat_rejection_budget_witness :
    (Agent.chat
        { current_file_path := some "data.csv", chat_session := some (),
          session_chats := [], has_session_service := false }
        none [.stopCandidate 3, .stopCandidate 3, .stopCandidate 4] 1
        (fun _ _ _ =>
          { success := false, result := none, plot_config := none,
            output := none, description := none, error := none })).result
      = .ok (Agent.rejectionResponse 4)
    ∧ (Agent.rejectionResponse 4).code = none
    ∧ (Agent.rejectionResponse 4).plot_config = none
    ∧ ∃ l, (Agent.rejectionResponse 4).execution_log = some l
        ∧ l.errors ≠ [] :=
  chat_rejection_budget _ none "data.csv" 3 3 4 [] 1 _ rfl rfl

/-! ## Claim C6 — one priming event per session -/

/-- C6: with a dataset bound, a session service configured and a non-empty
session id, a first `chat` call sends the system priming instruction at most
once, and a second `chat` call on the state it leaves behind sends no
priming instruction at all — the stored per-session model session is reused
whatever the model scripts, fuels or executors of the two calls are. -/
theorem chat_primes_session_once (st : Agent.AgentState) (p sid : String)
    (script1 script2 : List Agent.ModelStep) (fuel1 fuel2 : Nat)
    (ex1 ex2 : String → String → String → Tools.ExecResultDict)
    (h1 : st.current_file_path = some p) (h2 : st.has_session_service = true)
    (h3 : sid ≠ "") :
    (Agent.chat st (some sid) script1 fuel1 ex1).sends.count .priming ≤ 1
    ∧ (Agent.chat (Agent.chat st (some sid) script1 fuel1 ex1).state
        (some sid) script2 fuel2 ex2).sends.count .priming = 0 := by
  constructor
  · rw [Agent.chat_priming_count, h1]
    cases Agent.currentChat (Agent.ensureKey st (Agent.sessionKey st (some sid)))
        (Agent.sessionKey st (some sid)) <;> simp
  · have hcfg := Agent.chat_preserves_config st (some sid) script1 fuel1 ex1
    exact Agent.chat_no_repriming _ p sid script2 fuel2 ex2
      (by rw [hcfg.1]; exact h1) (by rw [hcfg.2]; exact h2) h3
      (Agent.chat_handle_after st p sid script1 fuel1 ex1 h1 h2 h3)

/-- Witness for C6: two concrete sequential calls on session `"s1"`; the
first call primes (count ≤ 1) and the second call's send log contains no
priming event. -/
theorem chat_primes_session_once_witness :
    (Agent.chat
        { current_file_path := some "data.csv", chat_session := none,
          session_chats := [], has_session_service := true }
        (some "s1") [.reply [] 1, .reply [] 1] 1
        (fun _ _ _ =>
          { success := false, result := none, plot_config := none,
            output := none, description := none, error := none })).sends.count
        .priming ≤ 1
    ∧ (Agent.chat
        (Agent.chat
          { current_file_path := some "data.csv", chat_session := none,
            session_chats := [], has_session_service := true }
          (some "s1") [.reply [] 1, .reply [] 1] 1
          (fun _ _ _ =>
            { success := false, result := none, plot_config := none,
              output := none, description := none, error := none })).state
        (some "s1") [.reply [] 1] 1
        (fun _ _ _ =>
          { success := false, result := none, plot_config := none,
            output := none, description := none, error := none })).sends.count
        .priming = 0 :=
  chat_primes_session_once _ "data.csv" "s1" _ _ 1 1 _ _ rfl rfl (by decide)

/-! ## Claim C7 — rejection of the priming turn -/

/-- C7, counterexample: the claim says a `StopCandidateException` during the
priming send leaves no chat-session handle stored.  In the concrete run
below (default session, no handle yet, model rejects the priming turn with
finish_reason 4) `chat` does return the diagnostic response — but the handle
created by `model.start_chat` was saved into `self.chat_session` *before*
the send, so a handle remains stored and later calls will reuse this
never-primed session. -/
theorem chat_priming_rejection_keeps_handle :
    (Agent.chat
        { current_file_path := some "data.csv", chat_session := none,
          session_chats := [], has_session_service := false }
        none [.stopCandidate 4] 1
        (fun _ _ _ =>
          { success := false, result := none, plot_config := none,
            output := none, description := none, error := none })).state.chat_session
      = some ()
    ∧ (Agent.chat
        { current_file_path := some "data.csv", chat_session := none,
          session_chats := [], has_session_service := false }
        none [.stopCandidate 4] 1
        (fun _ _ _ =>
          { success := false, result := none, plot_config := none,
            output := none, description := none, error := none })).result
      = .ok (Agent.primingErrorResponse 4) := by
  exact ⟨rfl, rfl⟩

/-- C7, amended: when the priming send raises `StopCandidateException`,
`chat` aborts the turn and returns the diagnostic `AgentResponse` (null
`code`/`plot_config`, non-empty `execution_log.errors`) — but the
chat-session handle stored just before the send remains in the slot for that
session id (or the default slot), so the state is not left handle-free. -/
theorem chat_priming_rejection (st : Agent.AgentState)
    (session_id : Option String) (p : String) (fr : Nat)
    (rest : List Agent.ModelStep) (fuel : Nat)
    (ex : String → String → String → Tools.ExecResultDict)
    (h1 : st.current_file_path = some p)
    (hcc : Agent.currentChat
        (Agent.ensureKey st (Agent.sessionKey st session_id))
        (Agent.sessionKey st session_id) = none) :
    (Agent.chat st session_id (.stopCandidate fr :: rest) fuel ex).result
      = .ok (Agent.primingErrorResponse fr)
    ∧ (Agent.primingErrorResponse fr).code = none
    ∧ (Agent.primingErrorResponse fr).plot_config = none
    ∧ (∃ l, (Agent.primingErrorResponse fr).execution_log = some l
        ∧ l.errors ≠ [])
    ∧ Agent.currentChat
        (Agent.chat st session_id (.stopCandidate fr :: rest) fuel ex).state
        (Agent.sessionKey st session_id) = some () := by
  refine ⟨?_, rfl, rfl, ⟨_, rfl, by simp⟩, ?_⟩
  · simp [Agent.chat, h1, hcc]
  · rw [Agent.chat_state, h1, hcc]
    exact Agent.storeHandle_currentChat st (Agent.sessionKey st session_id)

/-- Witness for C7 (amended): a concrete session-aware agent whose priming
turn is rejected returns the diagnostic response and keeps a stored handle
for session `"s1"`. -/
theorem chat_priming_rejection_witness :
    (Agent.chat
        { current_file_path := some "data.csv", chat_session := none,
          session_chats := [], has_session_service := true }
        (some "s1") [.stopCandidate 10] 1
        (fun _ _ _ =>
          { success := false, result := none, plot_config := none,
            output := none, description := none, error := none })).result
      = .ok (Agent.primingErrorResponse 10)
    ∧ (Agent.primingErrorResponse 10).code = none
    ∧ (Agent.primingErrorResponse 10).plot_config = none
    ∧ (∃ l, (Agent.primingErrorResponse 10).execution_log = some l
        ∧ l.errors ≠ [])
    ∧ Agent.currentChat
        (Agent.chat
          { current_file_path := some "data.csv", chat_session := none,
            session_chats := [], has_session_service := true }
          (some "s1") [.stopCandidate 10] 1
          (fun _ _ _ =>
            { success := false, result := none, plot_config := none,
              output := none, description := none, error := none })).state
        (Agent.sessionKey
          { current_file_path := some "data.csv", chat_session := none,
            session_chats := [], has_session_service := true }
          (some "s1")) = some () :=
  chat_priming_rejection _ (some "s1") "data.csv" 10 [] 1 _ rfl rfl

/-! ## Claim C8 — `get_memories(category="insight", limit=2)` -/

/-- C8: on a store whose "insight" memories are exactly three, created at
times `t1 < t2 < t3` (`add_memory` appends at creation time, so their
insertion order is their creation order), `get_memories(category="insight",
limit=2)` returns exactly the memories created at `t3` and `t2`, newest
first. -/
theorem get_memories_insight_limit_two
    (store : MemorySvc.MemoryStore) (x y z : MemorySvc.Memory) (t1 t2 t3 : Nat)
    (hfilter : store.filter (fun m => m.category = "insight") = [x, y, z])
    (hx : x.created_at = t1) (hy : y.created_at = t2) (hz : z.created_at = t3)
    (h12 : t1 < t2) (h23 : t2 < t3) :
    MemorySvc.get_memories store (some "insight") 2 "created_at" = [z, y] := by
  have c1 : ¬ MemorySvc.createdDesc y z := by
    simp only [MemorySvc.createdDesc, hy, hz]
    omega
  have c2 : ¬ MemorySvc.createdDesc x z := by
    simp only [MemorySvc.createdDesc, hx, hz]
    omega
  have c3 : ¬ MemorySvc.createdDesc x y := by
    simp only [MemorySvc.createdDesc, hx, hy]
    omega
  simp [MemorySvc.get_memories, hfilter, List.insertionSort, List.orderedInsert,
    c1, c2, c3]

/-- Witness for C8: a concrete store of three "insight" memories created at
times 1 < 2 < 3 returns the ones created at 3 and 2, in that order. -/
theorem get_memories_insight_limit_two_witness :
    MemorySvc.get_memories
        [{ memory_id := "a", content := "i1", category := "insight", created_at := 1,
           metadata := [], access_count := 0, last_accessed := none },
         { memory_id := "b", content := "i2", category := "insight", created_at := 2,
           metadata := [], access_count := 0, last_accessed := none },
         { memory_id := "c", content := "i3", category := "insight", created_at := 3,
           metadata := [], access_count := 0, last_accessed := none }]
        (some "insight") 2 "created_at"
      = [{ memory_id := "c", content := "i3", category := "insight", created_at := 3,
           metadata := [], access_count := 0, last_accessed := none },
         { memory_id := "b", content := "i2", category := "insight", created_at := 2,
           metadata := [], access_count := 0, last_accessed := none }] :=
  get_memories_insight_limit_two
    [{ memory_id := "a", content := "i1", category := "insight", created_at := 1,
       metadata := [], access_count := 0, last_accessed := none },
     { memory_id := "b", content := "i2", category := "insight", created_at := 2,
       metadata := [], access_count := 0, last_accessed := none },
     { memory_id := "c", content := "i3", category := "insight", created_at := 3,
       metadata := [], access_count := 0, last_accessed := none }]
    { memory_id := "a", content := "i1", category := "insight", created_at := 1,
      metadata := [], access_count := 0, last_accessed := none }
    { memory_id := "b", content := "i2", category := "insight", created_at := 2,
      metadata := [], access_count := 0, last_accessed := none }
    { memory_id := "c", content := "i3", category := "insight", created_at := 3,
      metadata := [], access_count := 0, last_accessed := none }
    1 2 3 (by decide) rfl rfl rfl (by decide) (by decide)

/-! ## Claim C9 — `search_memories` -/

/-- Bumping the access stats of two memories by the same call preserves the
search ranking relation (both access counts grow by one, creation times are
untouched). -/
theorem searchDesc_bumpAccess (now : Nat) (a b : MemorySvc.Memory)
    (h : MemorySvc.searchDesc a b) :
    MemorySvc.searchDesc (MemorySvc.bumpAccess now a) (MemorySvc.bumpAccess now b) := by
  rcases h with h | ⟨he, hc⟩
  · exact Or.inl (Nat.succ_lt_succ h)
  · exact Or.inr ⟨by simp [MemorySvc.bumpAccess, he], hc⟩

/-- C9: `search_memories` returns exactly the stored memories whose content
or category contains the query as a case-insensitive substring — so `"sale"`
matches content `"Sales grew 10%"` and category `"sales_note"`, and
`"SALES"` behaves identically to `"sales"` — ranked by
`(access_count, created_at)` descending, truncated to the limit, with
`access_count` incremented and `last_accessed` set for each returned memory.
The first conjunct is the full characterization, covering the truncation
case: the returned list is the first `limit` entries (access-bumped) of a
permutation of the match list that is sorted by the ranking relation — so
when the matches exceed the limit, the memories returned are top-ranked
ones, in descending rank order, and nothing else. -/
theorem search_memories_contract :
    (∀ (store : MemorySvc.MemoryStore) (q : String) (limit now : Nat),
        (∃ s : List MemorySvc.Memory,
            s.Perm (store.filter (MemorySvc.matchesQuery q))
          ∧ s.Pairwise MemorySvc.searchDesc
          ∧ (MemorySvc.search_memories store q limit now).1
              = (s.take limit).map (MemorySvc.bumpAccess now))
      ∧ (∀ m ∈ (MemorySvc.search_memories store q limit now).1,
            ∃ m₀, m₀ ∈ store ∧ MemorySvc.matchesQuery q m₀ = true
              ∧ m = MemorySvc.bumpAccess now m₀)
      ∧ (MemorySvc.search_memories store q limit now).1.length
          = min limit (store.filter (MemorySvc.matchesQuery q)).length
      ∧ ((store.filter (MemorySvc.matchesQuery q)).length ≤ limit →
          (MemorySvc.search_memories store q limit now).1.Perm
            ((store.filter (MemorySvc.matchesQuery q)).map (MemorySvc.bumpAccess now)))
      ∧ (MemorySvc.search_memories store q limit now).1.Pairwise MemorySvc.searchDesc
      ∧ (∀ m ∈ (MemorySvc.search_memories store q limit now).1,
            m.last_accessed = some now))
    ∧ MemorySvc.matchesQuery "sale"
        { memory_id := "m1", content := "Sales grew 10%", category := "insight",
          created_at := 0, metadata := [], access_count := 0,
          last_accessed := none } = true
    ∧ MemorySvc.matchesQuery "sale"
        { memory_id := "m2", content := "Q3 numbers", category := "sales_note",
          created_at := 0, metadata := [], access_count := 0,
          last_accessed := none } = true
    ∧ (∀ (store : MemorySvc.MemoryStore) (limit now : Nat),
        MemorySvc.search_memories store "SALES" limit now
          = MemorySvc.search_memories store "sales" limit now) := by
  refine ⟨?_, by decide, by decide, ?_⟩
  · intro store q limit now
    have hret : (MemorySvc.search_memories store q limit now).1
        = (((store.filter (MemorySvc.matchesQuery q)).insertionSort
              MemorySvc.searchDesc).take limit).map (MemorySvc.bumpAccess now) := rfl
    have hperm : ((store.filter (MemorySvc.matchesQuery q)).insertionSort
        MemorySvc.searchDesc).Perm (store.filter (MemorySvc.matchesQuery q)) :=
      List.perm_insertionSort _ _
    refine ⟨?_, ?_, ?_, ?_, ?_, ?_⟩
    · exact ⟨(store.filter (MemorySvc.matchesQuery q)).insertionSort
          MemorySvc.searchDesc,
        hperm, List.sorted_insertionSort _ _, hret⟩
    · intro m hm
      rw [hret] at hm
      obtain ⟨m₀, hm₀, rfl⟩ := List.mem_map.mp hm
      have hmem : m₀ ∈ store.filter (MemorySvc.matchesQuery q) :=
        hperm.mem_iff.mp (List.take_subset _ _ hm₀)
      obtain ⟨hst, hmatch⟩ := List.mem_filter.mp hmem
      exact ⟨m₀, hst, hmatch, rfl⟩
    · rw [hret]
      simp [List.length_take, hperm.length_eq]
    · intro hle
      rw [hret]
      rw [List.take_of_length_le (by rw [hperm.length_eq]; exact hle)]
      exact hperm.map _
    · rw [hret]
      exact List.Pairwise.map _ (searchDesc_bumpAccess now)
        (List.Pairwise.sublist (List.take_sublist _ _)
          (List.sorted_insertionSort _ _))
    · intro m hm
      rw [hret] at hm
      obtain ⟨m₀, _, rfl⟩ := List.mem_map.mp hm
      rfl
  · intro store limit now
    have hq : MemorySvc.matchesQuery "SALES" = MemorySvc.matchesQuery "sales" := by
      funext m
      have h : MemorySvc.pyLower "SALES" = MemorySvc.pyLower "sales" := by decide
      simp only [MemorySvc.matchesQuery, h]
    simp only [MemorySvc.search_memories, hq]

/-- Witness for C9 at concrete inputs: on a one-memory store matching
`"sale"` the returned list is a permutation of the bumped match list (the
fits-within-limit hypothesis holds and is discharged), and on a three-match
store with limit 2 — the truncation case — the returned list is the first
two entries of a ranking-sorted permutation of the matches. -/
theorem search_memories_contract_witness :
    (MemorySvc.search_memories
        [{ memory_id := "m1", content := "Sales grew 10%", category := "insight",
           created_at := 0, metadata := [], access_count := 0,
           last_accessed := none }] "sale" 5 9).1.Perm
      (([({ memory_id := "m1", content := "Sales grew 10%", category := "insight",
            created_at := 0, metadata := [], access_count := 0,
            last_accessed := none } : MemorySvc.Memory)].filter
          (MemorySvc.matchesQuery "sale")).map (MemorySvc.bumpAccess 9))
    ∧ (∃ s : List MemorySvc.Memory,
        s.Perm ([{ memory_id := "a", content := "wholesale up", category := "note",
                   created_at := 1, metadata := [], access_count := 5,
                   last_accessed := none },
                 { memory_id := "b", content := "sale flat", category := "note",
                   created_at := 2, metadata := [], access_count := 1,
                   last_accessed := none },
                 { memory_id := "c", content := "resale down", category := "note",
                   created_at := 3, metadata := [], access_count := 3,
                   last_accessed := none }].filter (MemorySvc.matchesQuery "sale"))
      ∧ s.Pairwise MemorySvc.searchDesc
      ∧ (MemorySvc.search_memories
            [{ memory_id := "a", content := "wholesale up", category := "note",
               created_at := 1, metadata := [], access_count := 5,
               last_accessed := none },
             { memory_id := "b", content := "sale flat", category := "note",
               created_at := 2, metadata := [], access_count := 1,
               last_accessed := none },
             { memory_id := "c", content := "resale down", category := "note",
               created_at := 3, metadata := [], access_count := 3,
               last_accessed := none }] "sale" 2 9).1
          = (s.take 2).map (MemorySvc.bumpAccess 9)) :=
  ⟨(search_memories_contract.1
      [{ memory_id := "m1", content := "Sales grew 10%", category := "insight",
         created_at := 0, metadata := [], access_count := 0,
         last_accessed := none }] "sale" 5 9).2.2.2.1 (by decide),
   (search_memories_contract.1
      [{ memory_id := "a", content := "wholesale up", category := "note",
         created_at := 1, metadata := [], access_count := 5,
         last_accessed := none },
       { memory_id := "b", content := "sale flat", category := "note",
         created_at := 2, metadata := [], access_count := 1,
         last_accessed := none },
       { memory_id := "c", content := "resale down", category := "note",
         created_at := 3, metadata := [], access_count := 3,
         last_accessed := none }] "sale" 2 9).1⟩

/-- Witness for C10 at concrete inputs: a one-session store rejects a
duplicate id, and an empty store accepts a generated id. -/
theorem create_session_duplicate_and_fresh_witness :
    (SessionSvc.create_session
        [("s1", { session_id := "s1", created_at := 0, last_activity := 0,
                  metadata := [], conversation_history := [], context := [] })]
        (some "s1") [] "gen-id" 7
      = (.error "Session s1 already exists",
          [("s1", { session_id := "s1", created_at := 0, last_activity := 0,
                    metadata := [], conversation_history := [], context := [] })]))
      ∧ (∃ s, SessionSvc.create_session [] none [] "gen-id" 7
            = (.ok s, [("gen-id", s)]) ∧ s.session_id = "gen-id") := by
  constructor
  · exact (create_session_duplicate_and_fresh _ "s1" "gen-id" [] 7).1 (by decide)
  · exact (create_session_duplicate_and_fresh [] "s1" "gen-id" [] 7).2 (by decide)
